import Mathlib

/-!
Shallow embedding of `src/orders/orders.service.ts` (OrdersService), an
order-lifecycle coordinator: creation with remote product validation,
paginated listing, lookup with name enrichment, status change, payment
session creation and payment confirmation.

The Prisma store is modelled as a list of orders; each coordinator
operation is a pure function threading that list.  Remote calls (the
product validator, the payment gateway) are passed in as function
arguments.  JavaScript exceptions are modelled with `Except`:
`ServiceError.rpc` is a thrown `RpcException {status, message}`,
`ServiceError.raw` is any other uncaught error (a `TypeError`, a Prisma
error, a rejected remote call).
-/

namespace Orders

/-- A record `{id, name, price}` returned by the remote product validator. -/
structure Product where
  id : String
  name : String
  price : Int
deriving Repr, DecidableEq

/-- A line item `{productId, quantity}` of a `CreateOrderDto`. -/
structure OrderItemReq where
  productId : String
  quantity : Nat
deriving Repr, DecidableEq

/-- A persisted `OrderItem` row: `productId`, `quantity` and the price
snapshot taken at creation time. -/
structure OrderItemRow where
  productId : String
  quantity : Nat
  price : Int
deriving Repr, DecidableEq

/-- The `OrderStatus` enum of the Prisma schema. -/
inductive OrderStatus where
  | PENDING
  | PAID
  | DELIVERED
  | CANCELLED
deriving Repr, DecidableEq

/-- A persisted `Order` row together with its owned `OrderItem` rows and
`OrderReceipt` rows (each receipt kept as its `receiptUrl`). -/
structure Order where
  id : String
  status : OrderStatus
  paid : Bool
  paidAt : Option Nat
  totalAmount : Int
  totalItems : Nat
  stripeChargeId : Option String
  items : List OrderItemRow
  receipts : List String
deriving Repr, DecidableEq

/-- An order item as returned to the caller: the stored row enriched with
the product display name fetched from the validator. -/
structure EnrichedItem where
  productId : String
  quantity : Nat
  price : Int
  name : String
deriving Repr, DecidableEq

/-- The value returned by `create` and `findOne`: the order row with its
items enriched with names. -/
structure OrderView where
  order : Order
  items : List EnrichedItem
deriving Repr, DecidableEq

/-- An error surfaced by a coordinator operation.  `rpc status message`
is a thrown `RpcException({status, message})`; `raw message` is any other
uncaught JavaScript error that propagates to the transport unmapped. -/
inductive ServiceError where
  | rpc (status : Nat) (message : String)
  | raw (message : String)
deriving Repr, DecidableEq

/-- `HttpStatus.BAD_REQUEST`. -/
def BAD_REQUEST : Nat := 400

/-- `HttpStatus.NOT_FOUND`. -/
def NOT_FOUND : Nat := 404

/-- Message of the `TypeError` thrown by `products.find(...).price` when
`find` returns `undefined`. -/
def undefinedPriceMsg : String := "Cannot read properties of undefined (reading 'price')"

/-- Message of the `TypeError` thrown by `products.find(...).name` when
`find` returns `undefined`. -/
def undefinedNameMsg : String := "Cannot read properties of undefined (reading 'name')"

/-- `products.find(product => product.id === pid)`. -/
def findProduct (products : List Product) (pid : String) : Option Product :=
  products.find? (fun product => product.id == pid)

/-- Line 29: `createOrderDto.items.map(item => item.productId)` — the id
list sent to the validator (one entry per item, duplicates kept). -/
def requestedIds (items : List OrderItemReq) : List String :=
  items.map (fun item => item.productId)

/-- The step sequence of the reduce on lines 35–41, as a left fold over
the items carrying the accumulator `acc`.  The callback returns
`price * orderItem.quantity` without adding `acc`, so the previous
accumulator is discarded at every step (the last item wins); a missing
product makes `.price` throw. -/
def totalAmountGo (products : List Product) :
    List OrderItemReq → Int → Except String Int
  | [], acc => .ok acc
  | orderItem :: rest, _acc =>
    match findProduct products orderItem.productId with
    | none => .error undefinedPriceMsg
    | some product =>
      totalAmountGo products rest (product.price * (orderItem.quantity : Int))

/-- Lines 35–41: `items.reduce((acc, orderItem) => ..., 0)`. -/
def totalAmountCalc (items : List OrderItemReq) (products : List Product) :
    Except String Int :=
  totalAmountGo products items 0

/-- Lines 43–45: the `totalItems` reduce, `acc + orderItem.quantity`,
starting from `0`. -/
def totalItemsCalc (items : List OrderItemReq) : Nat :=
  items.foldl (fun acc orderItem => acc + orderItem.quantity) 0

/-- Lines 54–60: the `createMany` data — each item mapped to
`{productId, quantity, price}` with the price looked up in the validator
response; a missing product makes `.price` throw. -/
def itemRows (products : List Product) :
    List OrderItemReq → Except String (List OrderItemRow)
  | [] => .ok []
  | item :: rest =>
    match findProduct products item.productId with
    | none => .error undefinedPriceMsg
    | some product =>
      match itemRows products rest with
      | .error msg => .error msg
      | .ok rows => .ok (⟨item.productId, item.quantity, product.price⟩ :: rows)

/-- Lines 78–81 (and 148–151): each stored row enriched with
`products.find(...).name`; a missing product makes `.name` throw. -/
def enrichRows (products : List Product) :
    List OrderItemRow → Except String (List EnrichedItem)
  | [] => .ok []
  | item :: rest =>
    match findProduct products item.productId with
    | none => .error undefinedNameMsg
    | some product =>
      match enrichRows products rest with
      | .error msg => .error msg
      | .ok enriched =>
        .ok (⟨item.productId, item.quantity, item.price, product.name⟩ :: enriched)

/-- The body of the `try` block of `create` (lines 27–82): validate the
ids, compute the totals, persist order plus items in one transaction and
return the enriched view.  Any `String` error is an exception escaping
the `try` block. -/
def createTry (store : List Order) (newId : String)
    (validator : List String → Except String (List Product))
    (items : List OrderItemReq) : Except String (List Order × OrderView) :=
  match validator (requestedIds items) with
  | .error msg => .error msg
  | .ok products =>
    match totalAmountCalc items products with
    | .error msg => .error msg
    | .ok totalAmount =>
      let totalItems := totalItemsCalc items
      match itemRows products items with
      | .error msg => .error msg
      | .ok rows =>
        let order : Order :=
          { id := newId, status := .PENDING, paid := false, paidAt := none,
            totalAmount := totalAmount, totalItems := totalItems,
            stripeChargeId := none, items := rows, receipts := [] }
        match enrichRows products rows with
        | .error msg => .error msg
        | .ok enriched => .ok (store ++ [order], ⟨order, enriched⟩)

/-- `OrdersService.create` (lines 26–89): the `try` body wrapped by the
`catch` that rethrows every error as
`RpcException({status: BAD_REQUEST, message: error.message})`. -/
def create (store : List Order) (newId : String)
    (validator : List String → Except String (List Product))
    (items : List OrderItemReq) : Except ServiceError (List Order × OrderView) :=
  match createTry store newId validator items with
  | .error msg => .error (.rpc BAD_REQUEST msg)
  | .ok r => .ok r

/-- The `meta` object returned by `findAll`. -/
structure FindAllMeta where
  total : Nat
  page : Nat
  lastPage : Nat
deriving Repr, DecidableEq

/-- The `{data, meta}` object returned by `findAll`. -/
structure FindAllResult where
  data : List Order
  meta : FindAllMeta
deriving Repr, DecidableEq

/-- The Prisma `where: {status}` filter: an absent status matches every
row, a present one matches rows with that status. -/
def statusMatch (status : Option OrderStatus) (o : Order) : Bool :=
  match status with
  | none => true
  | some s => decide (o.status = s)

/-- `OrdersService.findAll` (lines 91–116): count the rows matching the
status filter, then return the page at `skip = (page-1)*limit`,
`take = limit`, with `meta = {total, page, lastPage = ceil(total/limit)}`.
`Math.ceil(total/perPage)` for a positive integer `perPage` is
`(total + perPage - 1) / perPage` in integer arithmetic. -/
def findAll (store : List Order) (status : Option OrderStatus)
    (page limit : Nat) : FindAllResult :=
  let matching := store.filter (statusMatch status)
  let totalPages := matching.length
  { data := (matching.drop ((page - 1) * limit)).take limit,
    meta :=
      { total := totalPages, page := page,
        lastPage := (totalPages + limit - 1) / limit } }

/-- `OrdersService.findOne` (lines 118–153): look up the order with its
items; absent → throw `RpcException({NOT_FOUND, "Order with id ... not
found"})`; otherwise call the validator with the stored product ids and
return the order with items enriched with names.  There is no
`try/catch` here, so a failed validator call or a missing product record
propagates as a raw error. -/
def findOne (store : List Order)
    (validator : List String → Except String (List Product))
    (id : String) : Except ServiceError OrderView :=
  match store.find? (fun o => o.id == id) with
  | none => .error (.rpc NOT_FOUND ("Order with id " ++ id ++ " not found"))
  | some order =>
    match validator (order.items.map (fun item => item.productId)) with
    | .error msg => .error (.raw msg)
    | .ok products =>
      match enrichRows products order.items with
      | .error msg => .error (.raw msg)
      | .ok enriched => .ok ⟨order, enriched⟩

/-- `OrdersService.changeStatus` (lines 155–168): `findOne(id)` first
(propagating its errors), then an unconditional
`order.update({where:{id}, data:{status}})`. -/
def changeStatus (store : List Order)
    (validator : List String → Except String (List Product))
    (id : String) (status : OrderStatus) :
    Except ServiceError (List Order × Order) :=
  match findOne store validator id with
  | .error e => .error e
  | .ok _ =>
    match store.find? (fun o => o.id == id) with
    | none => .error (.raw "Record to update not found.")
    | some order =>
      let updated := { order with status := status }
      .ok (store.map (fun o => if o.id == id then updated else o), updated)

/-- A line item `{name, price, quantity}` of the payment-session request. -/
structure PaymentItem where
  name : String
  price : Int
  quantity : Nat
deriving Repr, DecidableEq

/-- The `{orderId, currency, items}` payload sent to the payment gateway. -/
structure PaymentRequest where
  orderId : String
  currency : String
  items : List PaymentItem
deriving Repr, DecidableEq

/-- `OrdersService.createPaymentSession` (lines 170–184): send the
gateway `{orderId, currency: "usd", items: [{name, price, quantity}]}`
and return its reply unchanged.  The store is threaded to make the
absence of writes explicit. -/
def createPaymentSession {S : Type} (store : List Order) (order : OrderView)
    (gateway : PaymentRequest → S) : List Order × S :=
  (store,
   gateway
     { orderId := order.order.id, currency := "usd",
       items := order.items.map (fun item =>
         ⟨item.name, item.price, item.quantity⟩) })

/-- The `{orderId, stripePaymentId, receiptUrl}` payment confirmation. -/
structure PaidOrderDto where
  orderId : String
  stripePaymentId : String
  receiptUrl : String
deriving Repr, DecidableEq

/-- `OrdersService.paidOrder` (lines 186–207): one Prisma
`order.update` setting `status = PAID`, `paid = true`, `paidAt = now`,
`stripeChargeId`, and nested-creating the `OrderReceipt` with
`receiptUrl`.  A missing order id makes Prisma `update` throw its raw
"record not found" error; there is no `catch`, so it propagates
unmapped. -/
def paidOrder (store : List Order) (now : Nat) (dto : PaidOrderDto) :
    Except ServiceError (List Order × Order) :=
  match store.find? (fun o => o.id == dto.orderId) with
  | none => .error (.raw "Record to update not found.")
  | some order =>
    let updated :=
      { order with
        status := .PAID, paid := true, paidAt := some now,
        stripeChargeId := some dto.stripePaymentId,
        receipts := order.receipts ++ [dto.receiptUrl] }
    .ok (store.map (fun o => if o.id == dto.orderId then updated else o), updated)

instance {ε α : Type} [DecidableEq ε] [DecidableEq α] : DecidableEq (Except ε α)
  | .error a, .error b => decidable_of_iff (a = b) (by simp)
  | .error _, .ok _ => .isFalse (fun h => by cases h)
  | .ok _, .error _ => .isFalse (fun h => by cases h)
  | .ok a, .ok b => decidable_of_iff (a = b) (by simp)

/-- The items of the worked example of the spec:
`[{productId:"p1",quantity:2},{productId:"p2",quantity:1}]`. -/
def exItems : List OrderItemReq := [⟨"p1", 2⟩, ⟨"p2", 1⟩]

/-- The validator reply of the worked example:
`[{id:"p1",price:10,name:"A"},{id:"p2",price:5,name:"B"}]`. -/
def exProducts : List Product := [⟨"p1", "A", 10⟩, ⟨"p2", "B", 5⟩]

/-- A validator that replies with `exProducts` to any request. -/
def exValidator : List String → Except String (List Product) :=
  fun _ => .ok exProducts

/-- A fallback value for reading successful results. -/
def exFallback : List Order × OrderView :=
  ([], ⟨⟨"", .PENDING, false, none, 0, 0, none, [], []⟩, []⟩)

/-- The value `create` produces on the spec's worked example. -/
def exCreateResult : List Order × OrderView :=
  (create [] "order-1" exValidator exItems).toOption.getD exFallback

theorem totalItemsCalc_go (items : List OrderItemReq) (init : Nat) :
    items.foldl (fun acc orderItem => acc + orderItem.quantity) init
      = init + (items.map (fun orderItem => orderItem.quantity)).sum := by
  induction items generalizing init with
  | nil => simp
  | cons a l ih => simp [ih]; omega

theorem totalItemsCalc_eq_sum (items : List OrderItemReq) :
    totalItemsCalc items = (items.map (fun orderItem => orderItem.quantity)).sum := by
  simpa [totalItemsCalc] using totalItemsCalc_go items 0

theorem totalAmountGo_missing (products : List Product) (items : List OrderItemReq)
    (h : ∃ item ∈ items, findProduct products item.productId = none) (acc : Int) :
    totalAmountGo products items acc = .error undefinedPriceMsg := by
  induction items generalizing acc with
  | nil => simp at h
  | cons a l ih =>
    obtain ⟨item, hmem, hnone⟩ := h
    rcases List.mem_cons.mp hmem with rfl | hmem2
    · simp [totalAmountGo, hnone]
    · cases hfp : findProduct products a.productId with
      | none => simp [totalAmountGo, hfp]
      | some p => simp only [totalAmountGo, hfp]; exact ih ⟨item, hmem2, hnone⟩ _

theorem createTry_ok_fields (store : List Order) (newId : String)
    (validator : List String → Except String (List Product))
    (items : List OrderItemReq) (r : List Order × OrderView)
    (h : createTry store newId validator items = .ok r) :
    r.2.order.totalItems = totalItemsCalc items := by
  unfold createTry at h
  split at h
  · cases h
  · split at h
    · cases h
    · split at h
      · cases h
      · split at h
        · cases h
        · cases h; rfl

/-- Claim C1: the spec claims `totalAmount` is the sum of (validator price ×
quantity) over the line items — 25 on the worked example.  The reduce on
lines 35–41 discards its accumulator, so the code persists only the last
item's `price × quantity`: on the example with prices p1=10, p2=5 it
stores `totalAmount = 5`, not 25. -/
theorem C1_totalAmount_last_item_only :
    (create [] "order-1" exValidator exItems).toOption.map
        (fun r => r.2.order.totalAmount) = some 5 ∧ (5 : Int) ≠ 25 := by
  constructor
  · rfl
  · decide

/-- Claim C5 counterexample: with two line items referencing the same product
id, the id list the code sends the validator (line 29, a plain `map`
with no deduplication) is `["p1", "p1"]`, which is not duplicate-free —
the claim that each distinct id is sent exactly once fails. -/
theorem C5_counterexample :
    requestedIds [⟨"p1", 1⟩, ⟨"p1", 2⟩] = ["p1", "p1"] ∧
    ¬ (requestedIds [⟨"p1", 1⟩, ⟨"p1", 2⟩]).Nodup := by
  exact ⟨rfl, by decide⟩

/-- Claim C5 amended: `create` sends the validator one productId per line item
in item order, duplicates preserved; the ids sent are exactly the ids
referenced by the items, and `create` depends on the validator only
through its reply to that one request. -/
theorem C5_sends_one_id_per_item (store : List Order) (newId : String)
    (v1 v2 : List String → Except String (List Product))
    (items : List OrderItemReq)
    (h : v1 (requestedIds items) = v2 (requestedIds items)) :
    create store newId v1 items = create store newId v2 items ∧
    (requestedIds items).length = items.length ∧
    ∀ pid, pid ∈ requestedIds items ↔ ∃ item ∈ items, item.productId = pid := by
  refine ⟨?_, ?_, ?_⟩
  · unfold create createTry
    rw [h]
  · simp [requestedIds]
  · intro pid
    simp [requestedIds]

theorem C5_witness :
    exValidator (requestedIds exItems) = exValidator (requestedIds exItems) ∧
    (create [] "w5" exValidator exItems = create [] "w5" exValidator exItems ∧
     (requestedIds exItems).length = exItems.length ∧
     ∀ pid, pid ∈ requestedIds exItems ↔ ∃ item ∈ exItems, item.productId = pid) :=
  ⟨rfl, C5_sends_one_id_per_item [] "w5" exValidator exValidator exItems rfl⟩

/-- Claim C7: whenever `create` succeeds, the persisted order's `totalItems`
is the sum of the quantities of all line items. -/
theorem C7_create_totalItems (store : List Order) (newId : String)
    (validator : List String → Except String (List Product))
    (items : List OrderItemReq) (r : List Order × OrderView)
    (h : create store newId validator items = .ok r) :
    r.2.order.totalItems = (items.map (fun orderItem => orderItem.quantity)).sum := by
  unfold create at h
  cases hct : createTry store newId validator items with
  | error m => rw [hct] at h; cases h
  | ok r0 =>
    rw [hct] at h
    cases h
    rw [createTry_ok_fields _ _ _ _ _ hct, totalItemsCalc_eq_sum]

theorem C7_witness :
    create [] "order-1" exValidator exItems = Except.ok exCreateResult ∧
    exCreateResult.2.order.totalItems
      = (exItems.map (fun orderItem => orderItem.quantity)).sum :=
  ⟨by decide,
   C7_create_totalItems [] "order-1" exValidator exItems exCreateResult (by decide)⟩

/-- Claim C2: when the validator call fails, or some requested productId is
absent from its reply, `create` returns a BAD_REQUEST `RpcException`
carrying the underlying error message and persists nothing: the only
branch that returns a new store is the `.ok` branch, and here the result
is an error. -/
theorem C2_create_invalid_persists_nothing (store : List Order) (newId : String)
    (validator : List String → Except String (List Product))
    (items : List OrderItemReq)
    (h : (∃ m, validator (requestedIds items) = .error m) ∨
         (∃ products, validator (requestedIds items) = .ok products ∧
            ∃ item ∈ items, findProduct products item.productId = none)) :
    ∃ msg, create store newId validator items
        = .error (.rpc BAD_REQUEST msg) ∧
      (∀ m, validator (requestedIds items) = .error m → msg = m) := by
  rcases h with ⟨m, hv⟩ | ⟨products, hv, hmiss⟩
  · refine ⟨m, by simp [create, createTry, hv], ?_⟩
    intro m2 hm2
    rw [hv] at hm2
    cases hm2
    rfl
  · have hta : totalAmountCalc items products = .error undefinedPriceMsg :=
      totalAmountGo_missing products items hmiss 0
    refine ⟨undefinedPriceMsg, by simp [create, createTry, hv, hta], ?_⟩
    intro m2 hm2
    rw [hv] at hm2
    cases hm2

/-- A validator that knows no products at all. -/
def emptyValidator : List String → Except String (List Product) :=
  fun _ => .ok []

theorem C2_witness :
    ((∃ m, emptyValidator (requestedIds exItems) = Except.error m) ∨
     (∃ products, emptyValidator (requestedIds exItems) = Except.ok products ∧
        ∃ item ∈ exItems, findProduct products item.productId = none)) ∧
    ∃ msg, create [] "w2" emptyValidator exItems
        = .error (.rpc BAD_REQUEST msg) ∧
      (∀ m, emptyValidator (requestedIds exItems) = Except.error m → msg = m) :=
  have h : (∃ m, emptyValidator (requestedIds exItems) = Except.error m) ∨
      (∃ products, emptyValidator (requestedIds exItems) = Except.ok products ∧
        ∃ item ∈ exItems, findProduct products item.productId = none) :=
    Or.inr ⟨[], rfl, ⟨"p1", 2⟩, by decide, rfl⟩
  ⟨h, C2_create_invalid_persists_nothing [] "w2" emptyValidator exItems h⟩

/-- Claim C3: `findAll` reports `total` = number of matching rows, `page` as
requested, `lastPage` = the least number of pages of size `limit`
covering all matching rows (the ceiling of total/limit), and a data page
of at most `limit` rows taken at offset `(page-1)*limit`; a page beyond
the last page yields an empty data list, not an error. -/
theorem C3_findAll_pagination (store : List Order) (status : Option OrderStatus)
    (page limit : Nat) (hp : 1 ≤ page) (hl : 1 ≤ limit) :
    (findAll store status page limit).meta.total
        = (store.filter (statusMatch status)).length ∧
    (findAll store status page limit).meta.page = page ∧
    (store.filter (statusMatch status)).length
        ≤ (findAll store status page limit).meta.lastPage * limit ∧
    (∀ k, (store.filter (statusMatch status)).length ≤ k * limit →
        (findAll store status page limit).meta.lastPage ≤ k) ∧
    (findAll store status page limit).data.length ≤ limit ∧
    (findAll store status page limit).data
        = ((store.filter (statusMatch status)).drop ((page - 1) * limit)).take limit ∧
    ((findAll store status page limit).meta.lastPage < page →
        (findAll store status page limit).data = []) := by
  have hl0 : 0 < limit := hl
  have hceil : (findAll store status page limit).meta.lastPage
      = (store.filter (statusMatch status)).length ⌈/⌉ limit := by
    rw [Nat.ceilDiv_eq_add_pred_div]
    rfl
  have hle : (store.filter (statusMatch status)).length
      ≤ (findAll store status page limit).meta.lastPage * limit := by
    rw [hceil, Nat.mul_comm]
    simpa [smul_eq_mul] using
      le_smul_ceilDiv hl0 (b := (store.filter (statusMatch status)).length)
  refine ⟨rfl, rfl, hle, ?_, ?_, rfl, ?_⟩
  · intro k hk
    rw [hceil, ceilDiv_le_iff_le_smul hl0]
    simpa [smul_eq_mul, Nat.mul_comm] using hk
  · show (((store.filter (statusMatch status)).drop ((page - 1) * limit)).take
        limit).length ≤ limit
    rw [List.length_take]
    exact min_le_left _ _
  · intro hpage
    show ((store.filter (statusMatch status)).drop ((page - 1) * limit)).take limit
        = []
    have h1 : (findAll store status page limit).meta.lastPage ≤ page - 1 :=
      Nat.le_sub_one_of_lt hpage
    have h2 : (store.filter (statusMatch status)).length ≤ (page - 1) * limit :=
      le_trans hle (Nat.mul_le_mul_right limit h1)
    rw [List.drop_eq_nil_of_le h2, List.take_nil]

theorem C3_witness :
    1 ≤ 2 ∧ 1 ≤ 10 ∧
    ((findAll [] none 2 10).meta.total = (List.filter (statusMatch none) []).length ∧
     (findAll [] none 2 10).meta.page = 2 ∧
     (List.filter (statusMatch none) []).length
        ≤ (findAll [] none 2 10).meta.lastPage * 10 ∧
     (∀ k, (List.filter (statusMatch none) []).length ≤ k * 10 →
        (findAll [] none 2 10).meta.lastPage ≤ k) ∧
     (findAll [] none 2 10).data.length ≤ 10 ∧
     (findAll [] none 2 10).data
        = ((List.filter (statusMatch none) []).drop ((2 - 1) * 10)).take 10 ∧
     ((findAll [] none 2 10).meta.lastPage < 2 → (findAll [] none 2 10).data = [])) :=
  ⟨by decide, by decide, C3_findAll_pagination [] none 2 10 (by decide) (by decide)⟩

/-- Claim C4: for an order present in the store (and with no receipt yet, as
receipts only ever come from payment confirmation), `paidOrder` succeeds
and the updated order has status PAID, paid = true, a non-null paidAt,
the charge reference set to the stripePaymentId, exactly one receipt
holding receiptUrl, while totalAmount, totalItems and the line items are
unchanged; every other order in the store is untouched. -/
theorem C4_paidOrder_updates (store : List Order) (now : Nat) (dto : PaidOrderDto)
    (o : Order) (hfind : store.find? (fun x => x.id == dto.orderId) = some o)
    (hrec : o.receipts = []) :
    ∃ store2 upd, paidOrder store now dto = .ok (store2, upd) ∧
      upd.status = .PAID ∧ upd.paid = true ∧
      upd.paidAt = some now ∧ upd.paidAt ≠ none ∧
      upd.stripeChargeId = some dto.stripePaymentId ∧
      upd.receipts = [dto.receiptUrl] ∧
      upd.totalAmount = o.totalAmount ∧ upd.totalItems = o.totalItems ∧
      upd.items = o.items ∧ upd.id = o.id ∧
      upd ∈ store2 ∧ store2.length = store.length ∧
      (∀ x ∈ store, x.id ≠ dto.orderId → x ∈ store2) := by
  have hpo := List.find?_some hfind
  have hmem : o ∈ store := List.mem_of_find?_eq_some hfind
  simp only [paidOrder, hfind]
  refine ⟨_, _, rfl, rfl, rfl, rfl, by simp, rfl, by simp [hrec], rfl, rfl, rfl,
    rfl, ?_, by simp, ?_⟩
  · exact List.mem_map.mpr ⟨o, hmem, by simp [hpo]⟩
  · intro x hx hne
    have hxf : (x.id == dto.orderId) = false := by
      simp [hne]
    exact List.mem_map.mpr ⟨x, hx, by simp [hxf]⟩

/-- An order row as persisted by the worked example (with the buggy
totalAmount the code computes). -/
def exOrder : Order :=
  ⟨"o1", .PENDING, false, none, 5, 3, none, [⟨"p1", 2, 10⟩, ⟨"p2", 1, 5⟩], []⟩

theorem C4_witness :
    List.find? (fun x => x.id == "o1") [exOrder] = some exOrder ∧
    exOrder.receipts = [] ∧
    ∃ store2 upd, paidOrder [exOrder] 7 ⟨"o1", "ch_1", "https://r/1"⟩
        = .ok (store2, upd) ∧
      upd.status = .PAID ∧ upd.paid = true ∧
      upd.paidAt = some 7 ∧ upd.paidAt ≠ none ∧
      upd.stripeChargeId = some "ch_1" ∧
      upd.receipts = ["https://r/1"] ∧
      upd.totalAmount = exOrder.totalAmount ∧ upd.totalItems = exOrder.totalItems ∧
      upd.items = exOrder.items ∧ upd.id = exOrder.id ∧
      upd ∈ store2 ∧ store2.length = [exOrder].length ∧
      (∀ x ∈ [exOrder], x.id ≠ "o1" → x ∈ store2) :=
  ⟨by decide, rfl,
   C4_paidOrder_updates [exOrder] 7 ⟨"o1", "ch_1", "https://r/1"⟩ exOrder
     (by decide) rfl⟩

/-- Claim C6: for an id matching no stored order, `findOne` throws a NOT_FOUND
`RpcException` whose message names the id, and `changeStatus` on the
same id propagates exactly that error without returning any updated
store. -/
theorem C6_not_found_propagates (store : List Order)
    (validator : List String → Except String (List Product))
    (id : String) (status : OrderStatus)
    (h : ∀ o ∈ store, o.id ≠ id) :
    findOne store validator id
        = .error (.rpc NOT_FOUND ("Order with id " ++ id ++ " not found")) ∧
    changeStatus store validator id status
        = .error (.rpc NOT_FOUND ("Order with id " ++ id ++ " not found")) ∧
    ∃ pre post, "Order with id " ++ id ++ " not found" = pre ++ id ++ post := by
  have hfind : store.find? (fun o => o.id == id) = none := by
    rw [List.find?_eq_none]
    intro o ho
    simpa using h o ho
  refine ⟨?_, ?_, "Order with id ", " not found", rfl⟩
  · simp [findOne, hfind]
  · simp [changeStatus, findOne, hfind]

theorem C6_witness :
    (∀ o ∈ ([] : List Order), o.id ≠ "missing") ∧
    (findOne [] exValidator "missing"
        = .error (.rpc NOT_FOUND ("Order with id " ++ "missing" ++ " not found")) ∧
     changeStatus [] exValidator "missing" OrderStatus.DELIVERED
        = .error (.rpc NOT_FOUND ("Order with id " ++ "missing" ++ " not found")) ∧
     ∃ pre post, "Order with id " ++ "missing" ++ " not found"
        = pre ++ "missing" ++ post) :=
  ⟨by simp,
   C6_not_found_propagates [] exValidator "missing" OrderStatus.DELIVERED (by simp)⟩

theorem enrichRows_missing (products : List Product) (rows : List OrderItemRow)
    (h : ∃ item ∈ rows, findProduct products item.productId = none) :
    enrichRows products rows = .error undefinedNameMsg := by
  induction rows with
  | nil => simp at h
  | cons a l ih =>
    obtain ⟨item, hmem, hnone⟩ := h
    rcases List.mem_cons.mp hmem with rfl | hmem2
    · simp [enrichRows, hnone]
    · cases hfp : findProduct products a.productId with
      | none => simp [enrichRows, hfp]
      | some p =>
        simp only [enrichRows, hfp]
        rw [ih ⟨item, hmem2, hnone⟩]

/-- Claim C8: for a stored order, if the enrichment call of `findOne` fails or
its reply omits one of the stored productIds, the whole lookup fails (as
a raw uncaught error — `findOne` has no try/catch); no partially
enriched result is returned. -/
theorem C8_findOne_fail_fast (store : List Order)
    (validator : List String → Except String (List Product))
    (id : String) (o : Order)
    (hfind : store.find? (fun x => x.id == id) = some o)
    (hfail : (∃ m, validator (o.items.map (fun item => item.productId))
                = .error m) ∨
             (∃ products,
                validator (o.items.map (fun item => item.productId))
                    = .ok products ∧
                ∃ item ∈ o.items, findProduct products item.productId = none)) :
    ∃ msg, findOne store validator id = .error (.raw msg) := by
  rcases hfail with ⟨m, hv⟩ | ⟨products, hv, hmiss⟩
  · exact ⟨m, by simp [findOne, hfind, hv]⟩
  · exact ⟨undefinedNameMsg,
      by simp [findOne, hfind, hv, enrichRows_missing products o.items hmiss]⟩

/-- A validator whose remote call fails. -/
def failValidator : List String → Except String (List Product) :=
  fun _ => .error "upstream down"

theorem C8_witness :
    List.find? (fun x => x.id == "o1") [exOrder] = some exOrder ∧
    ((∃ m, failValidator (exOrder.items.map (fun item => item.productId))
        = Except.error m) ∨
     (∃ products,
        failValidator (exOrder.items.map (fun item => item.productId))
            = Except.ok products ∧
        ∃ item ∈ exOrder.items, findProduct products item.productId = none)) ∧
    ∃ msg, findOne [exOrder] failValidator "o1" = .error (.raw msg) :=
  ⟨by decide, Or.inl ⟨"upstream down", rfl⟩,
   C8_findOne_fail_fast [exOrder] failValidator "o1" exOrder (by decide)
     (Or.inl ⟨"upstream down", rfl⟩)⟩

/-- Claim C9: `createPaymentSession` writes nothing to the store, sends the
gateway a request with currency "usd", the order's id, and the order's
items mapped to `{name, price, quantity}` value for value, and returns
the gateway's reply verbatim. -/
theorem C9_payment_session_pure {S : Type} (store : List Order)
    (order : OrderView) (gateway : PaymentRequest → S) :
    (createPaymentSession store order gateway).1 = store ∧
    ∃ req, (createPaymentSession store order gateway).2 = gateway req ∧
      req.currency = "usd" ∧
      req.orderId = order.order.id ∧
      req.items.length = order.items.length ∧
      req.items.map (fun item => item.name)
        = order.items.map (fun item => item.name) ∧
      req.items.map (fun item => item.price)
        = order.items.map (fun item => item.price) ∧
      req.items.map (fun item => item.quantity)
        = order.items.map (fun item => item.quantity) := by
  refine ⟨rfl, _, rfl, rfl, rfl, by simp, ?_, ?_, ?_⟩
  · rw [List.map_map]
    rfl
  · rw [List.map_map]
    rfl
  · rw [List.map_map]
    rfl

/-- Claim C10: `paidOrder` on an orderId matching no stored order surfaces the
repository's raw error — not an `RpcException` of the NOT_FOUND shape
used by the coordinator — and returns no updated store. -/
theorem C10_paidOrder_missing_raw (store : List Order) (now : Nat)
    (dto : PaidOrderDto) (h : ∀ o ∈ store, o.id ≠ dto.orderId) :
    paidOrder store now dto = .error (.raw "Record to update not found.") ∧
    ∀ s m, (ServiceError.raw "Record to update not found.")
        ≠ ServiceError.rpc s m := by
  have hfind : store.find? (fun o => o.id == dto.orderId) = none := by
    rw [List.find?_eq_none]
    intro o ho
    simpa using h o ho
  refine ⟨by simp [paidOrder, hfind], ?_⟩
  intro s m hc
  cases hc

theorem C10_witness :
    (∀ o ∈ ([] : List Order), o.id ≠ "ghost") ∧
    (paidOrder [] 3 ⟨"ghost", "ch_9", "https://r/9"⟩
        = .error (.raw "Record to update not found.") ∧
     ∀ s m, (ServiceError.raw "Record to update not found.")
        ≠ ServiceError.rpc s m) :=
  ⟨by simp,
   C10_paidOrder_missing_raw [] 3 ⟨"ghost", "ch_9", "https://r/9"⟩ (by simp)⟩

end Orders
